import Mathlib

/-!
Shallow embedding of `src/main.py` (the local-cursor coding agent):
the six tool executors, the tool-dispatch boundary (`execute_tool`),
and the orchestration loop (`process_user_input`) of `CodingAgent`.
External effects (the subprocess shell, the glob engine, the HTTP
search provider, the process environment, the filesystem) are modelled
as explicit oracle arguments and an explicit filesystem state.
-/

/-- ANSI escape emitted by colorama `Fore.RED`. -/
def fRED : String := "\x1b[31m"

/-- ANSI escape emitted by colorama `Fore.GREEN`. -/
def fGREEN : String := "\x1b[32m"

/-- ANSI escape emitted by colorama `Fore.YELLOW`. -/
def fYELLOW : String := "\x1b[33m"

/-- ANSI escape emitted by colorama `Fore.CYAN`. -/
def fCYAN : String := "\x1b[36m"

/-- ANSI escape emitted by colorama `Style.RESET_ALL`. -/
def sRESET : String := "\x1b[0m"

/-- Accumulator-based splitter on a character predicate: `acc` holds the
characters of the current token in reverse. -/
def splitByAux (p : Char → Bool) : List Char → List Char → List String
  | [], acc => if acc = [] then [] else [String.mk acc.reverse]
  | c :: cs, acc =>
    if p c then
      (if acc = [] then [] else [String.mk acc.reverse]) ++ splitByAux p cs []
    else
      splitByAux p cs (c :: acc)

/-- Python `str.split()` with no separator: split on whitespace runs,
dropping empty pieces. -/
def pySplit (s : String) : List String :=
  splitByAux Char.isWhitespace s.data []

/-- The fixed allowed-command whitelist of `CodingAgent.run_command`
(`src/main.py` line 408). -/
def allowed_commands : List String :=
  ["ls", "dir", "find", "grep", "cat", "head", "tail", "wc", "echo"]

/-- Outcome of `subprocess.run(cmd, shell=True, capture_output=True, text=True)`:
the exit code plus captured stdout and stderr. -/
structure ShellResult where
  returncode : Int
  stdout : String
  stderr : String

/-- Result formatting of `run_command` after the subprocess returns
(`src/main.py` lines 422-428): stdout on exit code 0 (with a dedicated
message when stdout is empty), stderr otherwise. -/
def formatShellOutput (cmd : String) (result : ShellResult) : String :=
  if result.returncode = 0 then
    if result.stdout = "" then
      fGREEN ++ "✅ Command '" ++ cmd ++ "' executed successfully with no output" ++ sRESET
    else
      fGREEN ++ "✅ Command output:" ++ sRESET ++ "\n" ++ result.stdout
  else
    fRED ++ "❌ Command failed with error:" ++ sRESET ++ "\n" ++ result.stderr

/-- `CodingAgent.run_command` (`src/main.py` lines 404-430). The shell is an
oracle mapping the full command line to a `ShellResult`. The second component
instruments whether `subprocess.run` was reached: `false` means no subprocess
was invoked. `cmd.split()` is `pySplit`; `cmd_parts[0] if cmd_parts else ''`
is `headD "" `. -/
def run_command (shell : String → ShellResult) (cmd : String) : String × Bool :=
  let cmd_parts := pySplit cmd
  if cmd_parts.isEmpty || !(allowed_commands.contains (cmd_parts.headD "")) then
    (fRED ++ "Error: Command '" ++ cmd_parts.headD "" ++
      "' is not allowed for security reasons" ++ sRESET, false)
  else
    (formatShellOutput cmd (shell cmd), true)

/-- Components of a path string: split on `/`, dropping empty pieces
(leading slash, doubled slashes). -/
def pathComponents (p : String) : List String :=
  splitByAux (fun c => c = '/') p.data []

/-- Whether a path string is absolute (starts with `/`). -/
def isAbsolutePath (p : String) : Bool :=
  match p.data with
  | '/' :: _ => true
  | _ => false

/-- Resolution of `.` and `..` during `Path.resolve` (no symlinks modelled):
`.` is dropped, `..` removes the last component and is a no-op at the root. -/
def normalizePath (comps : List String) : List String :=
  comps.foldl
    (fun acc c =>
      if c = "." then acc
      else if c = ".." then acc.dropLast
      else acc ++ [c]) []

/-- `(self.current_directory / path).resolve()` where `cwd` is the component
list of the absolute session working directory. -/
def resolvePath (cwd : List String) (path : String) : List String :=
  if isAbsolutePath path then normalizePath (pathComponents path)
  else normalizePath (cwd ++ pathComponents path)

/-- String rendering of an absolute component path, as `str(Path)` prints it. -/
def renderPath (p : List String) : String :=
  "/" ++ String.intercalate "/" p

/-- Explicit filesystem state: regular files as an association list from
absolute component paths to text content (the first match wins, so prepending
overwrites), plus the list of existing directories. -/
structure FS where
  files : List (List String × String)
  dirs : List (List String)

/-- Content of the regular file at `p`, when one exists. -/
def lookupFile (fs : FS) (p : List String) : Option String :=
  (fs.files.find? (fun e => decide (e.1 = p))).map (fun e => e.2)

/-- All initial segments of a component list, shortest first: the chain of
ancestor directories of a path. -/
def prefixesOf : List String → List (List String)
  | [] => [[]]
  | x :: xs => [] :: (prefixesOf xs).map (fun q => x :: q)

/-- `file_path.parent.mkdir(parents=True, exist_ok=True)`: add every missing
ancestor of `dir`, and `dir` itself, to the directory list. -/
def mkdirParents (fs : FS) (dir : List String) : FS :=
  { fs with dirs := fs.dirs ++ (prefixesOf dir).filter (fun q => ¬ q ∈ fs.dirs) }

/-- `CodingAgent.read_file` (`src/main.py` lines 348-355). Reading a missing
file or a directory raises OSError inside the `try`, caught and reported as an
error string; the OS error text is modelled approximately, claims never
depend on it. -/
def read_file (fs : FS) (cwd : List String) (path : String) : String :=
  let file_path := resolvePath cwd path
  if file_path ∈ fs.dirs then
    fRED ++ "Error reading file " ++ path ++ ": [Errno 21] Is a directory: '" ++
      renderPath file_path ++ "'" ++ sRESET
  else
    match lookupFile fs file_path with
    | some content => "Content of " ++ path ++ ":\n" ++ content
    | none =>
      fRED ++ "Error reading file " ++ path ++ ": [Errno 2] No such file or directory: '" ++
        renderPath file_path ++ "'" ++ sRESET

/-- `CodingAgent.write_file` (`src/main.py` lines 357-365): returns the updated
filesystem and the result string. `mkdir(parents=True, exist_ok=True)` raises
when an ancestor of the parent already exists as a regular file, and
`write_text` raises when the target itself is an existing directory; both are
caught by the surrounding `except` and reported as an error string (OS error
text modelled approximately). -/
def write_file (fs : FS) (cwd : List String) (path content : String) : FS × String :=
  let file_path := resolvePath cwd path
  if (prefixesOf file_path.dropLast).any (fun q => (lookupFile fs q).isSome) then
    (fs, fRED ++ "Error writing to file " ++ path ++ ": [Errno 20] Not a directory: '" ++
      renderPath file_path ++ "'" ++ sRESET)
  else
    let fs1 := mkdirParents fs file_path.dropLast
    if file_path ∈ fs1.dirs then
      (fs1, fRED ++ "Error writing to file " ++ path ++ ": [Errno 21] Is a directory: '" ++
        renderPath file_path ++ "'" ++ sRESET)
    else
      ({ fs1 with files := (file_path, content) :: fs1.files },
        fGREEN ++ "✅ Successfully created file " ++ path ++ ". The file now contains " ++
          toString content.length ++ " characters." ++ sRESET)

/-- Code-point lexicographic comparison of character lists, the order Python
string comparison uses. -/
def charListLe : List Char → List Char → Bool
  | [], _ => true
  | _ :: _, [] => false
  | a :: as, b :: bs =>
    if a < b then true else if b < a then false else charListLe as bs

/-- Python string `<=`: code-point lexicographic order on the characters. -/
def pyStrLe (a b : String) : Bool :=
  charListLe a.data b.data

/-- Insert a string into a `pyStrLe`-sorted list, keeping it sorted (stable:
the new element goes before later equal elements). -/
def pyInsert (a : String) : List String → List String
  | [] => [a]
  | b :: bs => if pyStrLe a b then a :: b :: bs else b :: pyInsert a bs

/-- Python `sorted` on a list of strings: a stable ascending sort, modelled as
insertion sort by `pyStrLe`. -/
def pysorted (l : List String) : List String :=
  l.foldr pyInsert []

/-- Decoration of a directory entry in `list_files` (`src/main.py` line 381). -/
def fmtDirEntry (n : String) : String :=
  fCYAN ++ "📁 " ++ n ++ "/" ++ sRESET

/-- Decoration of a file entry in `list_files` (`src/main.py` line 383). -/
def fmtFileEntry (n : String) : String :=
  fYELLOW ++ "📄 " ++ n ++ sRESET

/-- Entry ordering of `list_files` (`src/main.py` lines 374-385): partition the
children into directories and files preserving enumeration order (the one-pass
append loop of the source is the pair of filters), decorate each name, then
`sorted(dirs) + sorted(files)` — the sort is applied to the decorated
strings. -/
def list_files_entries (items : List (String × Bool)) : List String :=
  let dirs := (items.filter (fun it => it.2)).map (fun it => fmtDirEntry it.1)
  let files := (items.filter (fun it => !it.2)).map (fun it => fmtFileEntry it.1)
  pysorted dirs ++ pysorted files

/-- Immediate-child test: `some n` when `d = p ++ [n]`. -/
def childOf (p d : List String) : Option String :=
  if d.length = p.length + 1 ∧ d.take p.length = p then d.getLast? else none

/-- Immediate entries of directory `p` as `(name, is_dir)` pairs, in the
model's enumeration order (`Path.iterdir` order is OS-dependent and both
groups are sorted downstream). -/
def childrenOf (fs : FS) (p : List String) : List (String × Bool) :=
  (fs.dirs.filterMap (fun d => (childOf p d).map (fun n => (n, true)))) ++
  (fs.files.filterMap (fun f => (childOf p f.1).map (fun n => (n, false))))

/-- `CodingAgent.list_files` (`src/main.py` lines 367-390); `is_dir` is
membership in the directory list. -/
def list_files (fs : FS) (cwd : List String) (path : String) : String :=
  let dir_path := resolvePath cwd path
  if ¬ dir_path ∈ fs.dirs then
    fRED ++ "Error: " ++ path ++ " is not a directory" ++ sRESET
  else
    "Contents of " ++ renderPath dir_path ++ ":\n" ++
      String.intercalate "\n" (list_files_entries (childrenOf fs dir_path))

/-- `CodingAgent.find_files` (`src/main.py` lines 392-402). The call
`glob.glob(pattern, recursive=True)` is external: `globResult` is the list it
returned, in the glob engine's enumeration order. -/
def find_files (globResult : List String) (pattern : String) : String :=
  if globResult = [] then
    fYELLOW ++ "No files found matching '" ++ pattern ++ "'" ++ sRESET
  else
    fGREEN ++ "Found " ++ toString globResult.length ++ " files matching '" ++
      pattern ++ "':" ++ sRESET ++ "\n" ++
      String.intercalate "\n" (globResult.map (fun f => fYELLOW ++ f ++ sRESET))

/-- `os.environ.get`: first binding of the key in the environment list. -/
def envGet (env : List (String × String)) (key : String) : Option String :=
  (env.find? (fun e => decide (e.1 = key))).map (fun e => e.2)

/-- Decimal-digit accumulator for `pyInt?`. -/
def digitsVal : List Char → Nat → Option Nat
  | [], acc => some acc
  | c :: rest, acc =>
    if c.isDigit then digitsVal rest (acc * 10 + (c.toNat - 48)) else none

/-- Python `int(str)`: optional sign followed by at least one decimal digit
(`None` models the ValueError; whitespace and underscore tolerance of CPython
are not modelled, no claim depends on them). -/
def pyInt? (s : String) : Option Int :=
  match s.data with
  | [] => none
  | '-' :: rest =>
    if rest = [] then none else (digitsVal rest 0).map (fun n => -(n : Int))
  | '+' :: rest =>
    if rest = [] then none else (digitsVal rest 0).map (fun n => (n : Int))
  | cs => (digitsVal cs 0).map (fun n => (n : Int))

/-- One parsed entry of the Exa response body: the `title`, `url` and `text`
fields, each possibly absent. -/
structure ExaItem where
  title : Option String
  url : Option String
  text : Option String

/-- Parsed outcome of the `requests.post` call to the Exa endpoint: HTTP
status code plus the decoded `results` field (`none` when the key is absent
from the body). -/
structure ExaResponse where
  status_code : Int
  results : Option (List ExaItem)

/-- Formatting of one Exa result (`src/main.py` lines 459-467): index line,
URL line, and a description whose text is truncated to 150 characters with an
ellipsis. -/
def formatExaItem (i : Nat) (item : ExaItem) : String :=
  let title := item.title.getD "No title"
  let url := item.url.getD "No link"
  let text := item.text.getD ""
  let snippet := if text.length > 150 then text.take 150 ++ "..." else text
  toString i ++ ". " ++ title ++ "\n" ++ "   URL: " ++ url ++ "\n" ++
    "   Description: " ++ snippet ++ "\n\n"

/-- `enumerate(search_results["results"], 1)` folded over the formatter. -/
def formatExaList : Nat → List ExaItem → String
  | _, [] => ""
  | i, item :: rest => formatExaItem i item ++ formatExaList (i + 1) rest

/-- `CodingAgent.web_search` (`src/main.py` lines 432-472). The HTTP provider
is an oracle from the query and the coerced result count to a response; the
second component instruments whether the HTTP request was issued (`false`
means `requests.post` was never reached). `if not api_key` treats an absent
key and an empty-string key alike; a failing `int(num_results)` is caught by
the surrounding `except`. -/
def web_search (env : List (String × String)) (http : String → Int → ExaResponse)
    (query : String) (num_results : String) : String × Bool :=
  match envGet env "EXA_API_KEY" with
  | none => ("Error: Exa API key not configured.", false)
  | some key =>
    if key = "" then ("Error: Exa API key not configured.", false)
    else
      match pyInt? num_results with
      | none =>
        ("Error executing web search: invalid literal for int() with base 10: '" ++
          num_results ++ "'", false)
      | some n =>
        let response := http query n
        if response.status_code ≠ 200 then
          ("Error: Exa API returned status code " ++ toString response.status_code, true)
        else
          match response.results with
          | none => ("No results found for query: '" ++ query ++ "'", true)
          | some [] => ("No results found for query: '" ++ query ++ "'", true)
          | some items =>
            ("Search results for '" ++ query ++ "':\n\n" ++ formatExaList 1 items, true)

/-- The mutable session state plus every external collaborator the tool
executors touch: the filesystem, the working directory, the subprocess shell,
the glob engine, the process environment, and the HTTP search provider. -/
structure World where
  fs : FS
  cwd : List String
  shell : String → ShellResult
  globFn : String → List String
  env : List (String × String)
  http : String → Int → ExaResponse

/-- The string-keyed registry of `execute_tool` (`src/main.py` lines 330-337). -/
def registryNames : List String :=
  ["read_file", "write_file", "list_files", "find_files", "run_command", "web_search"]

/-- Keyword-argument binding of `tools[tool_name](**params)`: every required
name must be present and no unexpected name may appear; a violation is the
TypeError the dispatch boundary catches (message text modelled approximately). -/
def bindArgs (funName : String) (required optionalKeys : List String)
    (params : List (String × String)) : Except String Unit :=
  match required.find? (fun k => !(params.map (fun e => e.1)).contains k) with
  | some k =>
    .error (funName ++ "() missing 1 required positional argument: '" ++ k ++ "'")
  | none =>
    match (params.map (fun e => e.1)).find?
        (fun k => !(required ++ optionalKeys).contains k) with
    | some k =>
      .error (funName ++ "() got an unexpected keyword argument '" ++ k ++ "'")
    | none => .ok ()

/-- Value of the argument `k`, or the given default when absent. -/
def argD (params : List (String × String)) (k dflt : String) : String :=
  ((params.find? (fun e => decide (e.1 = k))).map (fun e => e.2)).getD dflt

/-- The call `tools[tool_name](**params)` for a registered tool name:
keyword binding (whose failure is the exception escaping the executor call)
followed by the executor itself. Returns the updated world and the result
string. -/
def callTool (w : World) (tool_name : String) (params : List (String × String)) :
    Except String (World × String) :=
  match tool_name with
  | "read_file" =>
    match bindArgs "read_file" ["path"] [] params with
    | .error e => .error e
    | .ok _ => .ok (w, read_file w.fs w.cwd (argD params "path" ""))
  | "write_file" =>
    match bindArgs "write_file" ["path", "content"] [] params with
    | .error e => .error e
    | .ok _ =>
      let r := write_file w.fs w.cwd (argD params "path" "") (argD params "content" "")
      .ok ({ w with fs := r.1 }, r.2)
  | "list_files" =>
    match bindArgs "list_files" [] ["path"] params with
    | .error e => .error e
    | .ok _ => .ok (w, list_files w.fs w.cwd (argD params "path" "."))
  | "find_files" =>
    match bindArgs "find_files" ["pattern"] [] params with
    | .error e => .error e
    | .ok _ =>
      let pattern := argD params "pattern" ""
      .ok (w, find_files (w.globFn pattern) pattern)
  | "run_command" =>
    match bindArgs "run_command" ["cmd"] [] params with
    | .error e => .error e
    | .ok _ => .ok (w, (run_command w.shell (argD params "cmd" "")).1)
  | "web_search" =>
    match bindArgs "web_search" ["query"] ["num_results"] params with
    | .error e => .error e
    | .ok _ =>
      .ok (w, (web_search w.env w.http (argD params "query" "")
        (argD params "num_results" "5")).1)
  | _ => .error "unknown tool"

/-- `CodingAgent.execute_tool` (`src/main.py` lines 328-345): registry lookup,
the guarded call, the catch-and-stringify of any executor exception, and the
not-implemented fallback. Total by construction — it always returns a result
string to its caller. -/
def execute_tool (w : World) (tool_name : String) (params : List (String × String)) :
    World × String :=
  if tool_name ∈ registryNames then
    match callTool w tool_name params with
    | .ok r => r
    | .error e =>
      (w, fRED ++ "Error executing " ++ tool_name ++ ": " ++ e ++ sRESET)
  else
    (w, fRED ++ "Tool '" ++ tool_name ++ "' not implemented" ++ sRESET)

/-- One tool-call request of an assistant turn, with its arguments already
decoded from the serialized form (`json.loads(tool_call.function.arguments)`),
values rendered as strings. -/
structure ToolCall where
  id : String
  name : String
  arguments : List (String × String)
deriving DecidableEq

/-- One assistant turn returned by the Chat Client: optional text content and
zero or more tool-call requests, in request order. -/
structure AssistantTurn where
  content : Option String
  tool_calls : List ToolCall
deriving DecidableEq

/-- One entry of the conversation history, as the dict appended to
`self.messages`: role, content (absent on tool-call-only assistant turns),
and, on tool-role messages, the correlating call id and tool name. Assistant
messages keep their tool-call list (`model_dump` preserves it). -/
structure Message where
  role : String
  content : Option String
  tool_call_id : Option String := none
  name : Option String := none
  tool_calls : List ToolCall := []
deriving DecidableEq

/-- The assistant Message appended verbatim for a turn
(`self.messages.append(response_message.model_dump())`). -/
def mkAssistantMsg (turn : AssistantTurn) : Message :=
  { role := "assistant", content := turn.content, tool_calls := turn.tool_calls }

/-- The loop state of `CodingAgent` that `process_user_input` touches: the
message history, the world of external collaborators, and an instrumentation
counter of Chat Client round-trips (`self.chat` calls). -/
structure Agent where
  messages : List Message
  world : World
  chatCalls : Nat

/-- The per-turn tool pass (`src/main.py` lines 142-160): execute each
requested call left to right, threading filesystem effects, and produce the
tool-role Messages appended to the history, in request order. -/
def runToolCalls (w : World) : List ToolCall → World × List Message
  | [] => (w, [])
  | tc :: rest =>
    let r := execute_tool w tc.name tc.arguments
    let rec_ := runToolCalls r.1 rest
    (rec_.1,
      { role := "tool", content := some r.2,
        tool_call_id := some tc.id, name := some tc.name } :: rec_.2)

/-- The bounded round loop of `process_user_input` (`src/main.py` lines
129-167), with the Chat Client modelled as an oracle indexed by the number of
calls made so far. Each round appends the assistant Message; a turn with tool
calls appends the tool results and continues, a tool-call-free turn ends the
loop with `content or ""` as the final answer. `finalResp` threads the
`final_response` placeholder, which tool-call rounds never update. -/
def processRounds (oracle : Nat → AssistantTurn) :
    Nat → Agent → String → Agent × String
  | 0, a, finalResp => (a, finalResp)
  | n + 1, a, finalResp =>
    let turn := oracle a.chatCalls
    let a1 : Agent :=
      { messages := a.messages ++ [mkAssistantMsg turn],
        world := a.world, chatCalls := a.chatCalls + 1 }
    if turn.tool_calls.isEmpty then (a1, turn.content.getD "")
    else
      let r := runToolCalls a1.world turn.tool_calls
      processRounds oracle n
        { messages := a1.messages ++ r.2, world := r.1, chatCalls := a1.chatCalls }
        finalResp

/-- `CodingAgent.process_user_input` (`src/main.py` lines 121-169): append the
user Message, then run up to 5 rounds starting from the empty
`final_response` placeholder. Returns the final agent state and the returned
answer text. -/
def process_user_input (oracle : Nat → AssistantTurn) (a : Agent)
    (user_input : String) : Agent × String :=
  processRounds oracle 5
    { messages := a.messages ++ [{ role := "user", content := some user_input }],
      world := a.world, chatCalls := a.chatCalls }
    ""

/-- A concrete world for witnesses: empty filesystem with a root directory,
inert shell, glob, environment and search provider. -/
def w0 : World :=
  ⟨⟨[], [[]]⟩, ["home"], fun _ => ⟨0, "", ""⟩, fun _ => [], [], fun _ _ => ⟨200, none⟩⟩

/-- A concrete agent for witnesses: empty history over `w0`. -/
def a0 : Agent :=
  ⟨[], w0, 0⟩

/-- An oracle whose every turn carries text and one tool call, so the round
bound is always exhausted. -/
def oracleBusy : Nat → AssistantTurn :=
  fun _ => ⟨some "working on it", [⟨"id1", "bogus_tool", []⟩]⟩

/-- C1: every command line whose first whitespace-delimited token lies outside
the fixed whitelist {ls, dir, find, grep, cat, head, tail, wc, echo} is
answered with an explicit denial message, and the subprocess oracle is never
invoked (the instrumentation flag stays `false`); in particular
`run_command "rm -rf /"` is rejected without execution. -/
theorem run_command_rejects_nonwhitelisted
    (shell : String → ShellResult) (cmd c : String) (rest : List String)
    (hsplit : pySplit cmd = c :: rest) (hc : c ∉ allowed_commands) :
    run_command shell cmd =
      (fRED ++ "Error: Command '" ++ c ++ "' is not allowed for security reasons" ++ sRESET,
        false) := by
  unfold run_command
  rw [hsplit]
  simp [hc]

/-- Witness: `run_command "rm -rf /"` returns the denial string and never
reaches the shell. -/
theorem run_command_rejects_nonwhitelisted_witness :
    run_command (fun _ => ⟨0, "", ""⟩) "rm -rf /" =
      (fRED ++ "Error: Command 'rm' is not allowed for security reasons" ++ sRESET, false) :=
  run_command_rejects_nonwhitelisted (fun _ => ⟨0, "", ""⟩) "rm -rf /" "rm" ["-rf", "/"]
    (by decide) (by decide)

/-- C10: the whitelist check inspects only the first whitespace-delimited
token. When that token is allowed, the entire original command line — further
tokens, shell operators and additional commands included — is handed to the
shell for execution; and the empty command line (no tokens) is rejected with
a denial message without executing anything. -/
theorem run_command_first_token_only :
    (∀ (shell : String → ShellResult) (cmd c : String) (rest : List String),
        pySplit cmd = c :: rest → c ∈ allowed_commands →
        run_command shell cmd = (formatShellOutput cmd (shell cmd), true)) ∧
    (∀ (shell : String → ShellResult) (cmd : String), pySplit cmd = [] →
        run_command shell cmd =
          (fRED ++ "Error: Command '' is not allowed for security reasons" ++ sRESET,
            false)) := by
  constructor
  · intro shell cmd c rest hsplit hc
    unfold run_command
    rw [hsplit]
    simp [hc]
  · intro shell cmd hsplit
    unfold run_command
    rw [hsplit]
    simp
    decide

/-- Witness: `"echo hi; rm -rf /"` passes the whitelist on its first token and
the shell receives the complete line, operators and trailing `rm -rf /`
included; the all-whitespace command line is denied without execution. -/
theorem run_command_first_token_only_witness :
    run_command (fun s => ⟨0, "ran " ++ s, ""⟩) "echo hi; rm -rf /" =
      (fGREEN ++ "✅ Command output:" ++ sRESET ++ "\n" ++ "ran echo hi; rm -rf /", true) ∧
    run_command (fun s => ⟨0, "ran " ++ s, ""⟩) "   " =
      (fRED ++ "Error: Command '' is not allowed for security reasons" ++ sRESET, false) :=
  ⟨by
    rw [run_command_first_token_only.1 (fun s => ⟨0, "ran " ++ s, ""⟩)
      "echo hi; rm -rf /" "echo" ["hi;", "rm", "-rf", "/"] (by decide) (by decide)]
    decide,
   run_command_first_token_only.2 (fun s => ⟨0, "ran " ++ s, ""⟩) "   " (by decide)⟩

/-- C9: for every query, `web_search` invoked with no EXA_API_KEY configured
in the process environment returns the missing-configuration text and never
issues the HTTP request (the instrumentation flag stays `false`). -/
theorem web_search_requires_api_key
    (env : List (String × String)) (http : String → Int → ExaResponse)
    (query num_results : String)
    (h : envGet env "EXA_API_KEY" = none) :
    web_search env http query num_results =
      ("Error: Exa API key not configured.", false) := by
  unfold web_search
  rw [h]

/-- Witness: a search against an environment without the key yields the
not-configured text and the HTTP oracle is never consulted. -/
theorem web_search_requires_api_key_witness :
    web_search [("HOME", "/root")] (fun _ _ => ⟨200, none⟩) "lean theorem prover" "5" =
      ("Error: Exa API key not configured.", false) :=
  web_search_requires_api_key [("HOME", "/root")] (fun _ _ => ⟨200, none⟩)
    "lean theorem prover" "5" (by decide)

/-- C3: `execute_tool` is a total function of its inputs — it always hands a
text result back to the loop. A name outside the registry yields the
not-implemented text (and no executor runs: the world is unchanged), and an
exception escaping a registered executor call is caught at the dispatch
boundary and rendered as an error text carrying the tool name and the failure
description. -/
theorem execute_tool_total_dispatch :
    (∀ (w : World) (name : String) (params : List (String × String)),
        name ∉ registryNames →
        execute_tool w name params =
          (w, fRED ++ "Tool '" ++ name ++ "' not implemented" ++ sRESET)) ∧
    (∀ (w : World) (name : String) (params : List (String × String)) (e : String),
        name ∈ registryNames → callTool w name params = .error e →
        execute_tool w name params =
          (w, fRED ++ "Error executing " ++ name ++ ": " ++ e ++ sRESET)) := by
  constructor
  · intro w name params h
    unfold execute_tool
    rw [if_neg h]
  · intro w name params e hmem herr
    unfold execute_tool
    rw [if_pos hmem, herr]

/-- Witness: dispatching the unregistered name `bogus_tool` returns the
not-implemented text, and calling `read_file` without its required `path`
argument is caught and rendered as a dispatch-level error text. -/
theorem execute_tool_total_dispatch_witness :
    execute_tool w0 "bogus_tool" [] =
      (w0, fRED ++ "Tool 'bogus_tool' not implemented" ++ sRESET) ∧
    execute_tool w0 "read_file" [] =
      (w0, fRED ++ "Error executing " ++ "read_file" ++ ": " ++
        "read_file() missing 1 required positional argument: 'path'" ++ sRESET) :=
  ⟨execute_tool_total_dispatch.1 w0 "bogus_tool" [] (by decide),
   execute_tool_total_dispatch.2 w0 "read_file" []
     "read_file() missing 1 required positional argument: 'path'" (by decide) rfl⟩

/-- A member of `prefixesOf l` is an initial segment, so no longer than `l`. -/
theorem length_le_of_mem_prefixesOf {q l : List String} (h : q ∈ prefixesOf l) :
    q.length ≤ l.length := by
  induction l generalizing q with
  | nil =>
    simp [prefixesOf] at h
    simp [h]
  | cons x xs ih =>
    simp only [prefixesOf, List.mem_cons, List.mem_map] at h
    rcases h with h | ⟨r, hr, rfl⟩
    · simp [h]
    · simpa using ih hr

/-- After `mkdirParents`, every ancestor up to `dir` itself is a directory. -/
theorem mem_mkdirParents (fs : FS) (dir : List String) {q : List String}
    (h : q ∈ prefixesOf dir) : q ∈ (mkdirParents fs dir).dirs := by
  unfold mkdirParents
  simp only [List.mem_append, List.mem_filter, decide_eq_true_eq]
  by_cases hq : q ∈ fs.dirs
  · exact Or.inl hq
  · exact Or.inr ⟨h, hq⟩

/-- `mkdirParents` creates no directory longer than `dir`: a path strictly
longer than `dir` that was not a directory before is not one after. -/
theorem not_mem_mkdirParents (fs : FS) (dir : List String) {q : List String}
    (hq : q ∉ fs.dirs) (hlen : dir.length < q.length) :
    q ∉ (mkdirParents fs dir).dirs := by
  unfold mkdirParents
  simp only [List.mem_append, List.mem_filter, decide_eq_true_eq]
  rintro (h | ⟨h, _⟩)
  · exact hq h
  · exact absurd (length_le_of_mem_prefixesOf h) (by omega)

/-- C6: `write_file` on a relative path creates every missing intermediate
parent directory and stores the content, and an immediately following
`read_file` of the same path returns exactly that content (round-trip),
whenever the target is writable: no ancestor of the file already exists as a
regular file, the target itself is not an existing directory, and the
resolved path is nonempty. -/
theorem write_then_read_roundtrip
    (fs : FS) (cwd : List String) (path content : String)
    (_hrel : isAbsolutePath path = false)
    (hnl : resolvePath cwd path ≠ [])
    (hdir : ¬ resolvePath cwd path ∈ fs.dirs)
    (hanc : ∀ q ∈ prefixesOf (resolvePath cwd path).dropLast, lookupFile fs q = none) :
    read_file (write_file fs cwd path content).1 cwd path =
        "Content of " ++ path ++ ":\n" ++ content ∧
      ∀ q ∈ prefixesOf (resolvePath cwd path).dropLast,
        q ∈ (write_file fs cwd path content).1.dirs := by
  have hany : (prefixesOf (resolvePath cwd path).dropLast).any
      (fun q => (lookupFile fs q).isSome) = false := by
    rw [List.any_eq_false]
    intro q hq
    simp [hanc q hq]
  have hlen : (resolvePath cwd path).dropLast.length < (resolvePath cwd path).length := by
    rw [List.length_dropLast]
    have : 0 < (resolvePath cwd path).length := List.length_pos.mpr hnl
    omega
  have hnd1 : resolvePath cwd path ∉
      (mkdirParents fs (resolvePath cwd path).dropLast).dirs :=
    not_mem_mkdirParents fs _ hdir hlen
  have hw : write_file fs cwd path content =
      ({ files := (resolvePath cwd path, content) ::
            (mkdirParents fs (resolvePath cwd path).dropLast).files,
         dirs := (mkdirParents fs (resolvePath cwd path).dropLast).dirs },
        fGREEN ++ "✅ Successfully created file " ++ path ++ ". The file now contains " ++
          toString content.length ++ " characters." ++ sRESET) := by
    unfold write_file
    simp only [hany, Bool.false_eq_true, if_false]
    rw [if_neg hnd1]
  constructor
  · rw [hw]
    unfold read_file
    rw [if_neg hnd1]
    simp [lookupFile, List.find?]
  · intro q hq
    rw [hw]
    exact mem_mkdirParents fs _ hq

/-- Witness: on an empty filesystem, writing `"a/b/c.txt"` with content
`"hello"` creates the intermediate directories and reading the path back
returns `"hello"`. -/
theorem write_then_read_roundtrip_witness :
    read_file (write_file ⟨[], [[]]⟩ ["home"] "a/b/c.txt" "hello").1 ["home"] "a/b/c.txt" =
        "Content of " ++ "a/b/c.txt" ++ ":\n" ++ "hello" ∧
      ["home", "a", "b"] ∈ (write_file ⟨[], [[]]⟩ ["home"] "a/b/c.txt" "hello").1.dirs :=
  ⟨(write_then_read_roundtrip ⟨[], [[]]⟩ ["home"] "a/b/c.txt" "hello"
      (by decide) (by decide) (by decide) (by decide)).1,
   (write_then_read_roundtrip ⟨[], [[]]⟩ ["home"] "a/b/c.txt" "hello"
      (by decide) (by decide) (by decide) (by decide)).2
     ["home", "a", "b"] (by decide)⟩

/-- The per-round bookkeeping of `processRounds`: each round makes at most one
Chat Client call, so `n` rounds add at most `n` to the call counter. -/
theorem processRounds_chatCalls_le (oracle : Nat → AssistantTurn) :
    ∀ (n : Nat) (a : Agent) (f : String),
      (processRounds oracle n a f).1.chatCalls ≤ a.chatCalls + n := by
  intro n
  induction n with
  | zero =>
    intro a f
    simp [processRounds]
  | succ n ih =>
    intro a f
    unfold processRounds
    by_cases h : (oracle a.chatCalls).tool_calls.isEmpty
    · simp only [h, if_true]
      omega
    · simp only [h, if_false, Bool.false_eq_true]
      have := ih
        { messages := (a.messages ++ [mkAssistantMsg (oracle a.chatCalls)]) ++
            (runToolCalls a.world (oracle a.chatCalls).tool_calls).2,
          world := (runToolCalls a.world (oracle a.chatCalls).tool_calls).1,
          chatCalls := a.chatCalls + 1 } f
      simp only at this
      omega

/-- C5: for every user input and every sequence of assistant turns, the
orchestration loop performs at most 5 Chat Client round-trips before
returning, however many tool calls each turn requests. -/
theorem loop_at_most_five_chat_calls (oracle : Nat → AssistantTurn) (a : Agent)
    (user_input : String) :
    (process_user_input oracle a user_input).1.chatCalls ≤ a.chatCalls + 5 :=
  processRounds_chatCalls_le oracle 5
    { messages := a.messages ++ [{ role := "user", content := some user_input }],
      world := a.world, chatCalls := a.chatCalls } ""

/-- C2: a turn carrying N tool-call requests appends, between this Chat
Client call and the next, exactly N tool-role Messages right after the
assistant Message — one per request, in request order, the i-th carrying the
i-th request's id and name — and every one of them carries string content. -/
theorem loop_appends_matching_tool_results :
    (∀ (w : World) (tcs : List ToolCall),
        (runToolCalls w tcs).2.length = tcs.length ∧
        (runToolCalls w tcs).2.map (fun m => (m.role, m.tool_call_id, m.name)) =
          tcs.map (fun tc => ("tool", some tc.id, some tc.name)) ∧
        ∀ m ∈ (runToolCalls w tcs).2, ∃ s, m.content = some s) ∧
    (∀ (oracle : Nat → AssistantTurn) (n : Nat) (a : Agent) (f : String),
        (oracle a.chatCalls).tool_calls ≠ [] →
        processRounds oracle (n + 1) a f =
          processRounds oracle n
            { messages := a.messages ++ [mkAssistantMsg (oracle a.chatCalls)] ++
                (runToolCalls a.world (oracle a.chatCalls).tool_calls).2,
              world := (runToolCalls a.world (oracle a.chatCalls).tool_calls).1,
              chatCalls := a.chatCalls + 1 } f) := by
  constructor
  · intro w tcs
    induction tcs generalizing w with
    | nil => simp [runToolCalls]
    | cons tc rest ih =>
      refine ⟨?_, ?_, ?_⟩
      · simp [runToolCalls, (ih (execute_tool w tc.name tc.arguments).1).1]
      · simp [runToolCalls, (ih (execute_tool w tc.name tc.arguments).1).2.1]
      · intro m hm
        simp only [runToolCalls, List.mem_cons] at hm
        rcases hm with rfl | hm
        · exact ⟨(execute_tool w tc.name tc.arguments).2, rfl⟩
        · exact (ih (execute_tool w tc.name tc.arguments).1).2.2 m hm
  · intro oracle n a f h
    have hne : (oracle a.chatCalls).tool_calls.isEmpty = false := by
      cases hcase : (oracle a.chatCalls).tool_calls with
      | nil => exact absurd hcase h
      | cons x xs => rfl
    conv =>
      lhs
      unfold processRounds
    simp only [hne, if_false, Bool.false_eq_true]

/-- An oracle whose every turn requests the same two tool calls. -/
def oracleTwo : Nat → AssistantTurn :=
  fun _ => ⟨none, [⟨"id1", "read_file", [("path", "x")]⟩, ⟨"id2", "bogus", []⟩]⟩

/-- Witness: two concrete requests produce exactly two tool-role Messages
with the matching ids and names in request order, and the round unfolds into
the next round over the extended history. -/
theorem loop_appends_matching_tool_results_witness :
    (runToolCalls w0 [⟨"id1", "read_file", [("path", "x")]⟩, ⟨"id2", "bogus", []⟩]).2.map
        (fun m => (m.role, m.tool_call_id, m.name)) =
      [("tool", some "id1", some "read_file"), ("tool", some "id2", some "bogus")] ∧
    processRounds oracleTwo 1 a0 "" =
      processRounds oracleTwo 0
        { messages := a0.messages ++ [mkAssistantMsg (oracleTwo a0.chatCalls)] ++
            (runToolCalls a0.world (oracleTwo a0.chatCalls).tool_calls).2,
          world := (runToolCalls a0.world (oracleTwo a0.chatCalls).tool_calls).1,
          chatCalls := a0.chatCalls + 1 } "" :=
  ⟨by
    rw [(loop_appends_matching_tool_results.1 w0
      [⟨"id1", "read_file", [("path", "x")]⟩, ⟨"id2", "bogus", []⟩]).2.1]
    decide,
   loop_appends_matching_tool_results.2 oracleTwo 0 a0 "" (by decide)⟩

/-- Rounds whose turns all carry tool calls never touch the `final_response`
placeholder: exhausting the fuel returns it unchanged. -/
theorem processRounds_all_tools_returns_placeholder (oracle : Nat → AssistantTurn) :
    ∀ (n : Nat) (a : Agent) (f : String),
      (∀ i, i < n → (oracle (a.chatCalls + i)).tool_calls ≠ []) →
      (processRounds oracle n a f).2 = f := by
  intro n
  induction n with
  | zero =>
    intro a f _
    simp [processRounds]
  | succ n ih =>
    intro a f h
    have h0 : (oracle a.chatCalls).tool_calls ≠ [] := by
      have := h 0 (by omega)
      simpa using this
    have hne : (oracle a.chatCalls).tool_calls.isEmpty = false := by
      cases hcase : (oracle a.chatCalls).tool_calls with
      | nil => exact absurd hcase h0
      | cons x xs => rfl
    unfold processRounds
    simp only [hne, if_false, Bool.false_eq_true]
    apply ih
    intro i hi
    have := h (i + 1) (by omega)
    simpa [Nat.add_assoc, Nat.add_comm 1 i] using this

/-- C4 (amended): if the 5-round bound is exhausted without any
tool-call-free assistant turn, the loop returns the empty string — the
untouched initial `final_response` placeholder — rather than failing; any
text the model produced alongside its tool calls is discarded, not
returned. -/
theorem round_bound_exhausted_returns_empty
    (oracle : Nat → AssistantTurn) (a : Agent) (user_input : String)
    (h : ∀ i, i < 5 → (oracle (a.chatCalls + i)).tool_calls ≠ []) :
    (process_user_input oracle a user_input).2 = "" :=
  processRounds_all_tools_returns_placeholder oracle 5
    { messages := a.messages ++ [{ role := "user", content := some user_input }],
      world := a.world, chatCalls := a.chatCalls } "" h

/-- Witness: under an oracle that always requests a tool call, the exhausted
loop returns the empty string. -/
theorem round_bound_exhausted_returns_empty_witness :
    (process_user_input oracleBusy a0 "hi").2 = "" :=
  round_bound_exhausted_returns_empty oracleBusy a0 "hi" (by decide)

/-- C4 counterexample: every round requests a tool call and the model's last
turn carries the text "working on it", yet the exhausted loop returns "" —
not the text content last produced by the model, refuting the claim as
stated. -/
theorem round_bound_returns_empty_not_last_text_cex :
    (process_user_input oracleBusy a0 "hi").2 = "" ∧
      (oracleBusy 4).content = some "working on it" ∧
      (process_user_input oracleBusy a0 "hi").2 ≠ "working on it" :=
  ⟨by decide, rfl, by decide⟩

/-- Code-point lexicographic comparison is total. -/
theorem charListLe_total : ∀ a b : List Char, charListLe a b = true ∨ charListLe b a = true
  | [], _ => Or.inl rfl
  | _ :: _, [] => Or.inr rfl
  | a :: as, b :: bs => by
    unfold charListLe
    rcases lt_trichotomy a b with h | h | h
    · left
      simp [h]
    · subst h
      simp only [lt_irrefl, if_false]
      exact charListLe_total as bs
    · right
      simp [h]

/-- Code-point lexicographic comparison is transitive. -/
theorem charListLe_trans : ∀ (a b c : List Char),
    charListLe a b = true → charListLe b c = true → charListLe a c = true
  | [], _, _, _, _ => rfl
  | _ :: _, [], _, h1, _ => by simp [charListLe] at h1
  | _ :: _, _ :: _, [], _, h2 => by simp [charListLe] at h2
  | a :: as, b :: bs, c :: cs, h1, h2 => by
    unfold charListLe at h1 h2 ⊢
    rcases lt_trichotomy a b with hab | hab | hab
    · rcases lt_trichotomy b c with hbc | hbc | hbc
      · simp [lt_trans hab hbc]
      · subst hbc
        simp [hab]
      · rw [if_neg (lt_asymm hbc), if_pos hbc] at h2
        exact absurd h2 (by simp)
    · subst hab
      simp only [lt_irrefl, if_false] at h1
      rcases lt_trichotomy a c with hac | hac | hac
      · simp [hac]
      · subst hac
        simp only [lt_irrefl, if_false] at h2 ⊢
        exact charListLe_trans as bs cs h1 h2
      · rw [if_neg (lt_asymm hac), if_pos hac] at h2
        exact absurd h2 (by simp)
    · rw [if_neg (lt_asymm hab), if_pos hab] at h1
      exact absurd h1 (by simp)

/-- Python string order is total. -/
theorem pyStrLe_total (a b : String) : pyStrLe a b = true ∨ pyStrLe b a = true :=
  charListLe_total a.data b.data

/-- Python string order is transitive. -/
theorem pyStrLe_trans {a b c : String} (h1 : pyStrLe a b = true)
    (h2 : pyStrLe b c = true) : pyStrLe a c = true :=
  charListLe_trans a.data b.data c.data h1 h2

/-- Members of `pyInsert a l` are `a` and the members of `l`. -/
theorem mem_pyInsert {x a : String} {l : List String} :
    x ∈ pyInsert a l ↔ x = a ∨ x ∈ l := by
  induction l with
  | nil => simp [pyInsert]
  | cons b bs ih =>
    unfold pyInsert
    by_cases h : pyStrLe a b = true
    · rw [if_pos h]
      simp only [List.mem_cons]
    · rw [if_neg h]
      simp only [List.mem_cons, ih]
      tauto

/-- Inserting into a `pyStrLe`-sorted list keeps it sorted. -/
theorem pairwise_pyInsert (a : String) (l : List String)
    (hl : l.Pairwise (fun x y => pyStrLe x y = true)) :
    (pyInsert a l).Pairwise (fun x y => pyStrLe x y = true) := by
  induction l with
  | nil => simp [pyInsert]
  | cons b bs ih =>
    rcases List.pairwise_cons.mp hl with ⟨hb, hbs⟩
    unfold pyInsert
    by_cases h : pyStrLe a b = true
    · rw [if_pos h]
      refine List.pairwise_cons.mpr ⟨?_, hl⟩
      intro y hy
      rcases List.mem_cons.mp hy with rfl | hy
      · exact h
      · exact pyStrLe_trans h (hb y hy)
    · rw [if_neg h]
      refine List.pairwise_cons.mpr ⟨?_, ih hbs⟩
      intro y hy
      rcases mem_pyInsert.mp hy with heq | hy
      · rw [heq]
        exact (pyStrLe_total a b).resolve_left h
      · exact hb y hy

/-- `pysorted` output is sorted in Python string order. -/
theorem pairwise_pysorted (l : List String) :
    (pysorted l).Pairwise (fun x y => pyStrLe x y = true) := by
  induction l with
  | nil => simp [pysorted]
  | cons a as ih =>
    unfold pysorted at ih ⊢
    exact pairwise_pyInsert a (as.foldr pyInsert []) ih

/-- `pyInsert` only reorders: the result is a permutation. -/
theorem perm_pyInsert (a : String) (l : List String) :
    (pyInsert a l).Perm (a :: l) := by
  induction l with
  | nil => exact List.Perm.refl _
  | cons b bs ih =>
    unfold pyInsert
    by_cases h : pyStrLe a b = true
    · rw [if_pos h]
    · rw [if_neg h]
      exact (ih.cons b).trans (List.Perm.swap a b bs)

/-- `pysorted` only reorders: the result is a permutation of the input. -/
theorem perm_pysorted (l : List String) : (pysorted l).Perm l := by
  induction l with
  | nil => exact List.Perm.refl _
  | cons a as ih =>
    unfold pysorted at ih ⊢
    exact (perm_pyInsert a (as.foldr pyInsert [])).trans (ih.cons a)

/-- The entry ordering the specification's words describe for list-directory:
each group alphabetically sorted by entry NAME, and only then decorated. A
comparison target for `list_files_entries`, which sorts the decorated
strings. -/
def list_files_entries_spec (items : List (String × Bool)) : List String :=
  (pysorted ((items.filter (fun it => it.2)).map (fun it => it.1))).map fmtDirEntry ++
  (pysorted ((items.filter (fun it => !it.2)).map (fun it => it.1))).map fmtFileEntry

/-- Concrete filesystem for the list-directory counterexample: a directory
`d` holding two subdirectories named `a` and `a.b`. -/
def fsCex : FS :=
  ⟨[], [[], ["d"], ["d", "a"], ["d", "a.b"]]⟩

/-- C7 counterexample: listing a directory with subdirectories `a` and `a.b`
renders `a.b` before `a` — the sort compares the decorated strings, where the
trailing slash of `a/` sorts after `.` — although `a` precedes `a.b`
alphabetically; the output therefore differs from the name-sorted order the
claim describes. -/
theorem list_files_not_name_sorted_cex :
    list_files fsCex [] "d" =
        "Contents of /d:\n" ++ fmtDirEntry "a.b" ++ "\n" ++ fmtDirEntry "a" ∧
      list_files_entries (childrenOf fsCex ["d"]) ≠
        list_files_entries_spec (childrenOf fsCex ["d"]) ∧
      pyStrLe "a" "a.b" = true ∧ ("a" : String) ≠ "a.b" :=
  ⟨by decide, by decide, by decide, by decide⟩

/-- C7 (amended): for every path naming a directory, list-directory renders
the immediate entries with all directories before all files, each group
sorted in code-point order of its decorated entry strings (directory names
carry a trailing slash, so this can deviate from alphabetical order of the
bare names when one name is a proper prefix of another whose next character
precedes the slash); for every path that is not a directory it returns an
error result instead. -/
theorem list_files_order_amended (fs : FS) (cwd : List String) (path : String) :
    (¬ resolvePath cwd path ∈ fs.dirs →
        list_files fs cwd path =
          fRED ++ "Error: " ++ path ++ " is not a directory" ++ sRESET) ∧
    (resolvePath cwd path ∈ fs.dirs →
        ∃ ds fsEnt : List String,
          list_files fs cwd path =
              "Contents of " ++ renderPath (resolvePath cwd path) ++ ":\n" ++
                String.intercalate "\n" (ds ++ fsEnt) ∧
            ds.Perm (((childrenOf fs (resolvePath cwd path)).filter
              (fun it => it.2)).map (fun it => fmtDirEntry it.1)) ∧
            fsEnt.Perm (((childrenOf fs (resolvePath cwd path)).filter
              (fun it => !it.2)).map (fun it => fmtFileEntry it.1)) ∧
            ds.Pairwise (fun x y => pyStrLe x y = true) ∧
            fsEnt.Pairwise (fun x y => pyStrLe x y = true)) := by
  constructor
  · intro h
    unfold list_files
    rw [if_pos h]
  · intro h
    refine ⟨pysorted (((childrenOf fs (resolvePath cwd path)).filter
        (fun it => it.2)).map (fun it => fmtDirEntry it.1)),
      pysorted (((childrenOf fs (resolvePath cwd path)).filter
        (fun it => !it.2)).map (fun it => fmtFileEntry it.1)),
      ?_, perm_pysorted _, perm_pysorted _, pairwise_pysorted _, pairwise_pysorted _⟩
    unfold list_files
    rw [if_neg (fun hc => hc h)]
    rfl

/-- Witness: a path that is not a directory is answered with the error
result. -/
theorem list_files_order_amended_witness :
    list_files fsCex [] "missing" =
      fRED ++ "Error: " ++ "missing" ++ " is not a directory" ++ sRESET :=
  (list_files_order_amended fsCex [] "missing").1 (by decide)

/-- The result shape the specification's words describe for find-by-pattern:
the count followed by the match list in sorted order. A comparison target for
`find_files`, which keeps the glob engine's order. -/
def find_files_spec (globResult : List String) (pattern : String) : String :=
  if globResult = [] then
    fYELLOW ++ "No files found matching '" ++ pattern ++ "'" ++ sRESET
  else
    fGREEN ++ "Found " ++ toString globResult.length ++ " files matching '" ++
      pattern ++ "':" ++ sRESET ++ "\n" ++
      String.intercalate "\n" ((pysorted globResult).map (fun f => fYELLOW ++ f ++ sRESET))

/-- C8 counterexample: when the glob engine reports `["b.txt", "a.txt"]` the
tool lists the matches in exactly that order, although `a.txt` precedes
`b.txt`; no sorting is applied, so the output differs from the sorted order
the claim describes. -/
theorem find_files_not_sorted_cex :
    find_files ["b.txt", "a.txt"] "*.txt" ≠ find_files_spec ["b.txt", "a.txt"] "*.txt" ∧
      find_files ["b.txt", "a.txt"] "*.txt" =
        fGREEN ++ "Found 2 files matching '*.txt':" ++ sRESET ++ "\n" ++
          String.intercalate "\n"
            [fYELLOW ++ "b.txt" ++ sRESET, fYELLOW ++ "a.txt" ++ sRESET] ∧
      pyStrLe "a.txt" "b.txt" = true ∧ ("a.txt" : String) ≠ "b.txt" :=
  ⟨by decide, by decide, by decide, by decide⟩

/-- C8 (amended): find-by-pattern reports the count of matches — the length
of the listed match list — followed by the matches in the order the glob
engine produced them (no sorting applied); when the pattern matches zero
files it returns an explicit no-matches message, never an empty success with
no message. -/
theorem find_files_amended (globResult : List String) (pattern : String) :
    (globResult = [] →
        find_files globResult pattern =
          fYELLOW ++ "No files found matching '" ++ pattern ++ "'" ++ sRESET) ∧
    (globResult ≠ [] →
        find_files globResult pattern =
          fGREEN ++ "Found " ++ toString globResult.length ++ " files matching '" ++
            pattern ++ "':" ++ sRESET ++ "\n" ++
            String.intercalate "\n"
              (globResult.map (fun f => fYELLOW ++ f ++ sRESET))) := by
  constructor
  · intro h
    unfold find_files
    rw [if_pos h]
  · intro h
    unfold find_files
    rw [if_neg h]

/-- Witness: a pattern with zero matches yields the explicit no-matches
message. -/
theorem find_files_amended_witness :
    find_files [] "*.zig" =
      fYELLOW ++ "No files found matching '" ++ "*.zig" ++ "'" ++ sRESET :=
  (find_files_amended [] "*.zig").1 rfl
